import Mathlib

/-! Verification development for the UR5e synthetic-data-generation
script `ur5e_sdg_script.py`: the orchestration state machine
(`run_orchestrator`, lines 46-59, and its call site, lines 150-151),
the top-level teardown block (lines 155-164), and the declarative
randomization pipeline registered under the frame trigger
(lines 84-128). -/

namespace UR5eSDG

/-- Modelled from the spec: the state of the replicator backend as the
script observes it through the orchestrator signals (`run`,
`get_is_started`), the dispatch barrier (`wait_until_done`) and the stop
command.  The script itself (in `src`) only sequences these calls; the
backend behaviour behind them follows spec sections 4.4 and 6:
while the run is live, each simulator tick lets the backend consume one
of the `num_frames` frames and issue that frame's write. -/
structure SimState where
  numFrames : Nat
  runRequested : Bool
  started : Bool
  runFinished : Bool
  framesRemaining : Nat
  writesIssued : Nat
  writesDone : Nat
  stopped : Bool
deriving DecidableEq, Repr

/-- Observable events of one program run.  A `drain` event records how
many per-frame writes had been issued at the moment the barrier
returned. -/
inductive Event where
  | run : Event
  | update : Event
  | drain : Nat → Event
  | stop : Event
deriving DecidableEq, Repr

/-- Backend state before `rep.orchestrator.run()`, for a configured
`num_frames = n`. -/
def init (n : Nat) : SimState := ⟨n, false, false, false, n, 0, 0, false⟩

/-- `rep.orchestrator.run()` (line 48): issue the run request. -/
def orchRun (s : SimState) : SimState := { s with runRequested := true }

/-- Modelled from the spec: one `simulation_app.update()` tick.  A
requested but not yet started run becomes started; while started, the
backend consumes one frame per tick and issues that frame's write, and
once every frame is consumed the started signal drops; otherwise the
tick only flushes residual backend work and changes nothing the script
observes. -/
def appUpdate (s : SimState) : SimState :=
  if s.runRequested = true ∧ s.started = false ∧ s.runFinished = false then
    { s with started := true }
  else if s.started = true then
    (if s.framesRemaining = 0 then { s with started := false, runFinished := true }
     else { s with framesRemaining := s.framesRemaining - 1,
                   writesIssued := s.writesIssued + 1 })
  else s

/-- Modelled from the spec: `rep.BackendDispatch.wait_until_done()`
(line 58) blocks until every issued write has drained, so when it
returns the drained count equals the issued count. -/
def waitUntilDone (s : SimState) : SimState := { s with writesDone := s.writesIssued }

/-- `rep.orchestrator.stop()` (line 59): the explicit stop command. -/
def orchStop (s : SimState) : SimState := { s with stopped := true }

/-- The first polling loop of `run_orchestrator` (lines 51-52):
`while not rep.orchestrator.get_is_started(): simulation_app.update()`.
Fuel bounds the number of iterations; the returned list holds one
`update` event per iteration that observed the signal still false. -/
def pollUntilStarted : Nat → SimState → Option (SimState × List Event)
  | 0, s => if s.started = true then some (s, []) else none
  | fuel+1, s =>
    if s.started = true then some (s, [])
    else (pollUntilStarted fuel (appUpdate s)).map (fun r => (r.1, Event.update :: r.2))

/-- The second polling loop of `run_orchestrator` (lines 55-56):
`while rep.orchestrator.get_is_started(): simulation_app.update()`. -/
def pollWhileStarted : Nat → SimState → Option (SimState × List Event)
  | 0, s => if s.started = true then none else some (s, [])
  | fuel+1, s =>
    if s.started = true then
      (pollWhileStarted fuel (appUpdate s)).map (fun r => (r.1, Event.update :: r.2))
    else some (s, [])

/-- `run_orchestrator` (lines 46-59): issue the run request, poll until
started, poll while started, then wait on the dispatch barrier and issue
the stop command. -/
def run_orchestrator (fuel : Nat) (s0 : SimState) : Option (SimState × List Event) :=
  match pollUntilStarted fuel (orchRun s0) with
  | none => none
  | some (s2, t1) =>
    match pollWhileStarted fuel s2 with
    | none => none
    | some (s3, t2) =>
      some (orchStop (waitUntilDone s3),
        Event.run :: (t1 ++ t2 ++ [Event.drain s3.writesIssued, Event.stop]))

/-- The tail of `main` (lines 150-151): `run_orchestrator()` followed by
exactly one `simulation_app.update()`. -/
def mainRun (n fuel : Nat) : Option (SimState × List Event) :=
  (run_orchestrator fuel (init n)).map (fun r => (appUpdate r.1, r.2 ++ [Event.update]))

/-- The backend state right after the has-started signal turns true. -/
def startedState (n : Nat) : SimState := ⟨n, true, true, false, n, 0, 0, false⟩

/-- The backend state right after the still-running signal drops: all
`n` frames consumed, all `n` writes issued, nothing drained yet. -/
def finishedState (n : Nat) : SimState := ⟨n, true, false, true, 0, n, 0, false⟩

/-- The backend state after the drain barrier and the stop command. -/
def finalState (n : Nat) : SimState := ⟨n, true, false, true, 0, n, n, true⟩

lemma pollUntilStarted_started (fuel : Nat) (s : SimState) (h : s.started = true) :
    pollUntilStarted fuel s = some (s, []) := by
  cases fuel <;> simp [pollUntilStarted, h]

lemma pollWhileStarted_not_started (fuel : Nat) (s : SimState) (h : s.started = false) :
    pollWhileStarted fuel s = some (s, []) := by
  cases fuel <;> simp [pollWhileStarted, h]

lemma appUpdate_orchRun_init (n : Nat) : appUpdate (orchRun (init n)) = startedState n := by
  simp [appUpdate, orchRun, init, startedState]

lemma pollUntilStarted_run (n : Nat) :
    pollUntilStarted (n+2) (orchRun (init n)) = some (startedState n, [Event.update]) := by
  have h1 : (orchRun (init n)).started = false := rfl
  show pollUntilStarted ((n+1)+1) (orchRun (init n)) = _
  rw [pollUntilStarted]
  simp [h1, appUpdate_orchRun_init,
    pollUntilStarted_started (n+1) (startedState n) rfl]

lemma pollWhileStarted_frames (k : Nat) : ∀ n wi : Nat,
    pollWhileStarted (k+2) (⟨n, true, true, false, k, wi, 0, false⟩ : SimState) =
      some ((⟨n, true, false, true, 0, wi + k, 0, false⟩ : SimState),
        List.replicate (k+1) Event.update) := by
  induction k with
  | zero =>
    intro n wi
    show pollWhileStarted (1+1) _ = _
    rw [pollWhileStarted]
    have hu : appUpdate (⟨n, true, true, false, 0, wi, 0, false⟩ : SimState) =
        (⟨n, true, false, true, 0, wi, 0, false⟩ : SimState) := by
      simp [appUpdate]
    simp [hu, pollWhileStarted_not_started 1
      (⟨n, true, false, true, 0, wi, 0, false⟩ : SimState) rfl]
  | succ k ih =>
    intro n wi
    show pollWhileStarted ((k+2)+1) _ = _
    rw [pollWhileStarted]
    have hu : appUpdate (⟨n, true, true, false, k+1, wi, 0, false⟩ : SimState) =
        (⟨n, true, true, false, k, wi + 1, 0, false⟩ : SimState) := by
      simp [appUpdate]
    have hw : wi + 1 + k = wi + (k + 1) := by omega
    simp [hu, ih n (wi + 1), hw, List.replicate_succ]

lemma pollWhileStarted_run (n : Nat) :
    pollWhileStarted (n+2) (startedState n) =
      some (finishedState n, List.replicate (n+1) Event.update) := by
  have h := pollWhileStarted_frames n n 0
  simpa [startedState, finishedState] using h

lemma run_orchestrator_eq (n : Nat) :
    run_orchestrator (n+2) (init n) =
      some (finalState n,
        Event.run :: ([Event.update] ++ List.replicate (n+1) Event.update ++
          [Event.drain n, Event.stop])) := by
  rw [run_orchestrator]
  simp [pollUntilStarted_run, pollWhileStarted_run, waitUntilDone, orchStop,
    finishedState, finalState]

lemma appUpdate_finalState (n : Nat) : appUpdate (finalState n) = finalState n := by
  simp [appUpdate, finalState]

/-- C1: after the Running phase ends, `run_orchestrator` first blocks on
the drain barrier, then issues the explicit stop command, and `main`
then performs exactly one final simulator clock advance.  In the full
trace the `drain` event precedes the `stop` event, which precedes a
single trailing `update`; the `drain` event carries the count `n` of
writes issued when the barrier returned, so the barrier never returns
before the writes for all `n` frames have been issued, and the final
state shows all `n` writes drained. -/
theorem orchestrator_drain_stop_one_final_update (n : Nat) :
    mainRun n (n+2) =
      some (finalState n,
        Event.run :: (List.replicate (n+2) Event.update ++
          [Event.drain n, Event.stop, Event.update])) ∧
    (finalState n).writesIssued = n ∧ (finalState n).writesDone = n ∧
    (finalState n).stopped = true := by
  refine ⟨?_, rfl, rfl, rfl⟩
  rw [mainRun, run_orchestrator_eq]
  have hrep : List.replicate (n+2) Event.update =
      Event.update :: List.replicate (n+1) Event.update := List.replicate_succ _ _
  simp [appUpdate_finalState, hrep]

/-- C2: after the run request, the orchestrator polls the has-started
signal, advancing the clock exactly once per poll iteration (one
`update` event per iteration, here one iteration), until the signal is
true; it then polls the still-running signal, again advancing once per
iteration, for `n+1` iterations until that signal is false with all `n`
frames consumed (`writesIssued = n`, `framesRemaining = 0`); only after
both loops does `run_orchestrator` enter the Stopped phase (drain
barrier, then stop) on the state the second loop produced. -/
theorem orchestrator_polls_once_per_iteration (n : Nat) :
    pollUntilStarted (n+2) (orchRun (init n)) =
      some (startedState n, List.replicate 1 Event.update) ∧
    (startedState n).started = true ∧
    pollWhileStarted (n+2) (startedState n) =
      some (finishedState n, List.replicate (n+1) Event.update) ∧
    (finishedState n).started = false ∧
    (finishedState n).framesRemaining = 0 ∧
    (finishedState n).writesIssued = n ∧
    run_orchestrator (n+2) (init n) =
      some (orchStop (waitUntilDone (finishedState n)),
        Event.run :: (List.replicate 1 Event.update ++
          List.replicate (n+1) Event.update ++
          [Event.drain (finishedState n).writesIssued, Event.stop])) := by
  refine ⟨?_, rfl, pollWhileStarted_run n, rfl, rfl, rfl, ?_⟩
  · simpa using pollUntilStarted_run n
  · rw [run_orchestrator_eq]
    simp [waitUntilDone, orchStop, finishedState, finalState]

/-! ## Top-level teardown (lines 155-164) -/

/-- One observable action of the `except`/`finally` blocks. -/
inductive TeardownAction where
  | logError : String → TeardownAction
  | printTraceback : TeardownAction
  | closeApp : TeardownAction
deriving DecidableEq, Repr

/-- Recognizer for the `simulation_app.close()` action. -/
def isClose : TeardownAction → Bool
  | TeardownAction.closeApp => true
  | _ => false

/-- The `if __name__ == "__main__"` block (lines 155-164): `try: main()`,
`except Exception as e:` log the error and print the traceback (the
exception is swallowed, not re-raised), `finally: simulation_app.close()`.
A Python process whose script body finishes without an uncaught
exception exits with code 0, so both branches yield exit code 0; the
result is the list of teardown actions performed, in order, paired with
the process exit code. -/
def scriptEntry (mainResult : Except String Unit) : List TeardownAction × Nat :=
  match mainResult with
  | Except.ok _ => ([TeardownAction.closeApp], 0)
  | Except.error e =>
      ([TeardownAction.logError (("Exception: ") ++ e), TeardownAction.printTraceback,
        TeardownAction.closeApp], 0)

/-- C3 counterexample: on an unhandled fault inside `main` the process
does NOT exit non-zero — the `except` clause catches, logs and swallows
the exception and the script then ends normally, so the exit code is 0.
This refutes, at the concrete fault input, the claim that any unhandled
fault during composition, randomization or orchestration yields a
non-zero exit code. -/
theorem fault_exit_code_not_nonzero :
    (scriptEntry (Except.error ("render failure"))).2 = 0 ∧
    ¬ (scriptEntry (Except.error ("render failure"))).2 ≠ 0 :=
  ⟨rfl, fun h => h rfl⟩

/-- C3 amended: the process exits with code 0 on clean completion, and
it also exits with code 0 on any unhandled fault raised inside `main`
(composition, randomization or orchestration): the fault is caught at
top level and logged, not converted into a non-zero exit code. -/
theorem exit_code_zero_on_every_path (r : Except String Unit) :
    (scriptEntry r).2 = 0 ∧
    (∀ e, r = Except.error e →
      TeardownAction.logError (("Exception: ") ++ e) ∈ (scriptEntry r).1) := by
  cases r with
  | ok a => exact ⟨rfl, fun e h => by cases h⟩
  | error e0 =>
    refine ⟨rfl, fun e h => ?_⟩
    cases h
    simp [scriptEntry]

/-- C3 amended, witness at a concrete fault. -/
theorem exit_code_zero_on_every_path_witness :
    (scriptEntry (Except.error ("boom"))).2 = 0 ∧
    TeardownAction.logError (("Exception: ") ++ ("boom")) ∈
      (scriptEntry (Except.error ("boom"))).1 :=
  ⟨(exit_code_zero_on_every_path (Except.error ("boom"))).1,
   (exit_code_zero_on_every_path (Except.error ("boom"))).2 ("boom") rfl⟩

/-- C4: on every exit path — clean completion or a fault from `main` —
`simulation_app.close()` is executed exactly once, and it is the last
action before the process ends (the `finally` block always runs, and
runs last). -/
theorem close_called_exactly_once_every_path (r : Except String Unit) :
    (scriptEntry r).1.countP isClose = 1 ∧
    (scriptEntry r).1.getLast? = some TeardownAction.closeApp := by
  cases r <;> simp [scriptEntry, isClose]

/-! ## Distributions and randomization rules (lines 75-128) -/

/-- A uniform distribution description: componentwise low/high bounds
(a scalar is the one-component case).  Engine floats are embedded as
rationals. -/
structure UniformDist where
  low : List ℚ
  high : List ℚ
deriving DecidableEq, Repr

/-- A distribution instance: each `rep.distribution.uniform(...)` call in
the script creates a fresh instance; `id` records the creation order, so
two rule arguments share an instance exactly when they carry the same
`id`. -/
structure DistRef where
  id : Nat
  dist : UniformDist
deriving DecidableEq, Repr

/-- The `path_pattern` selectors used by the script (lines 87, 91). -/
inductive PrimPattern where
  | groundPlane : PrimPattern
  | domeLight : PrimPattern
deriving DecidableEq, Repr

/-- The two object classes instantiated by the script. -/
inductive ObjClass where
  | cube : ObjClass
  | cylinder : ObjClass
deriving DecidableEq, Repr

/-- The attributes passed to `rep.modify.attribute` (lines 92-93). -/
inductive AttrName where
  | color : AttrName
  | intensity : AttrName
deriving DecidableEq, Repr

/-- A rule's target: a path-pattern selector, one of the three entity
handles created before the trigger block, or the instances of an object
class created inside the trigger block. -/
inductive Target where
  | primsPattern : PrimPattern → Target
  | camera : Target
  | tray : Target
  | plane : Target
  | instancesOf : ObjClass → Target
deriving DecidableEq, Repr

/-- One registered randomization rule, as written in the trigger block:
`rep.randomizer.color`, `rep.modify.attribute`, `rep.modify.pose`
(optional position / rotation / scale distributions),
`rep.randomizer.instantiate` (class, asset path, size distribution,
semantic labels) and `rep.randomizer.scatter_2d` (class, surface,
`check_for_collisions`). -/
inductive Rule where
  | colorize : Target → DistRef → Rule
  | modifyAttr : Target → AttrName → DistRef → Rule
  | modifyPose : Target → Option DistRef → Option DistRef → Option DistRef → Rule
  | instantiate : ObjClass → String → DistRef → List (String × String) → Rule
  | scatter2d : ObjClass → Target → Bool → Rule
deriving DecidableEq, Repr

/-- Line 88: `rep.distribution.uniform(0.15, 0.5)` (ground color). -/
def groundColorDist : DistRef := ⟨0, ⟨[0.15], [0.5]⟩⟩

/-- Line 92: `rep.distribution.uniform((0.9, 0.9, 0.9), (1, 1, 1))`. -/
def domeColorDist : DistRef := ⟨1, ⟨[0.9, 0.9, 0.9], [1, 1, 1]⟩⟩

/-- Line 93: `rep.distribution.uniform(600, 1200)`. -/
def domeIntensityDist : DistRef := ⟨2, ⟨[600], [1200]⟩⟩

/-- Line 98: camera position `uniform((1, 0, 1.77), (1, 0, 1.83))`. -/
def camPositionDist : DistRef := ⟨3, ⟨[1, 0, 1.77], [1, 0, 1.83]⟩⟩

/-- Line 99: camera rotation `uniform((0, -52, 0), (0, -48, 0))`. -/
def camRotationDist : DistRef := ⟨4, ⟨[0, -52, 0], [0, -48, 0]⟩⟩

/-- Line 102: `random_position`, created once and reused for the tray
and the plane. -/
def random_position : DistRef := ⟨5, ⟨[0.57, -0.03, 1.095], [0.63, 0.03, 1.095]⟩⟩

/-- Line 103: `random_rotation`, created once and reused for the tray
and the plane. -/
def random_rotation : DistRef := ⟨6, ⟨[0, 0, -2], [0, 0, 2]⟩⟩

/-- Line 115: cube instantiation size `uniform(0, 5)`. -/
def cubeSizeDist : DistRef := ⟨7, ⟨[0], [5]⟩⟩

/-- Line 117: cube rotation `uniform((0, 0, 0), (45, 45, 180))`. -/
def cubeRotationDist : DistRef := ⟨8, ⟨[0, 0, 0], [45, 45, 180]⟩⟩

/-- Line 118: cube scale `uniform((0.03, 0.03, 0.03), (0.06, 0.06, 0.06))`. -/
def cubeScaleDist : DistRef := ⟨9, ⟨[0.03, 0.03, 0.03], [0.06, 0.06, 0.06]⟩⟩

/-- Line 120: cube color `uniform((0.6, 0.0, 0.6), (1.0, 0.3, 1.0))`. -/
def cubeColorDist : DistRef := ⟨10, ⟨[0.6, 0, 0.6], [1, 0.3, 1]⟩⟩

/-- Line 123: cylinder instantiation size `uniform(0, 5)`. -/
def cylSizeDist : DistRef := ⟨11, ⟨[0], [5]⟩⟩

/-- Line 125: cylinder rotation `uniform((0, 0, 0), (45, 45, 180))`. -/
def cylRotationDist : DistRef := ⟨12, ⟨[0, 0, 0], [45, 45, 180]⟩⟩

/-- Line 126: cylinder scale `uniform((0.04, 0.04, 0.03), (0.06, 0.06, 0.06))`. -/
def cylScaleDist : DistRef := ⟨13, ⟨[0.04, 0.04, 0.03], [0.06, 0.06, 0.06]⟩⟩

/-- Line 128: cylinder color `uniform((0.0, 0.0, 0.0), (0.3, 0.3, 0.3))`. -/
def cylColorDist : DistRef := ⟨14, ⟨[0, 0, 0], [0.3, 0.3, 0.3]⟩⟩

/-- Reserved randomness-stream id for the cube `scatter_2d` call
(line 119), distinct from every distribution id. -/
def cubeScatterId : Nat := 15

/-- Reserved randomness-stream id for the cylinder `scatter_2d` call
(line 127), distinct from every distribution id. -/
def cylScatterId : Nat := 16

/-- Line 38: the cube asset reference. -/
def cubeAssetPath : String :=
  "https://omniverse-content-production.s3-us-west-2.amazonaws.com/Assets/Isaac/4.5/Isaac/Props/Shapes/cube.usd"

/-- Line 42: the cylinder asset reference. -/
def cylAssetPath : String :=
  "https://omniverse-content-production.s3-us-west-2.amazonaws.com/Assets/Isaac/4.5/Isaac/Props/Shapes/cylinder.usd"

/-- Line 88: `rep.randomizer.color` on the `GroundPlane` selector. -/
def groundColorRule : Rule := Rule.colorize (Target.primsPattern PrimPattern.groundPlane) groundColorDist

/-- Line 92: `rep.modify.attribute("color", ...)` on `DomeLight`. -/
def domeColorRule : Rule := Rule.modifyAttr (Target.primsPattern PrimPattern.domeLight) AttrName.color domeColorDist

/-- Line 93: `rep.modify.attribute("intensity", ...)` on `DomeLight`. -/
def domeIntensityRule : Rule := Rule.modifyAttr (Target.primsPattern PrimPattern.domeLight) AttrName.intensity domeIntensityDist

/-- Lines 96-99: `rep.modify.pose` on the camera (position and rotation
only — no scale distribution). -/
def cameraPoseRule : Rule := Rule.modifyPose Target.camera (some camPositionDist) (some camRotationDist) none

/-- Lines 104-107: `rep.modify.pose` on the tray, using the shared
`random_position` / `random_rotation` instances. -/
def trayPoseRule : Rule := Rule.modifyPose Target.tray (some random_position) (some random_rotation) none

/-- Lines 108-111: `rep.modify.pose` on the plane, using the same shared
`random_position` / `random_rotation` instances. -/
def planePoseRule : Rule := Rule.modifyPose Target.plane (some random_position) (some random_rotation) none

/-- Lines 114-116: `rep.randomizer.instantiate` for cubes. -/
def cubeInstantiateRule : Rule := Rule.instantiate ObjClass.cube cubeAssetPath cubeSizeDist [(("class"), ("cube"))]

/-- Lines 117-118: `rep.modify.pose` on the cube instances. -/
def cubePoseRule : Rule := Rule.modifyPose (Target.instancesOf ObjClass.cube) none (some cubeRotationDist) (some cubeScaleDist)

/-- Line 119: `rep.randomizer.scatter_2d(surface_prims=plane,
check_for_collisions=False)` for cubes. -/
def cubeScatterRule : Rule := Rule.scatter2d ObjClass.cube Target.plane false

/-- Line 120: `rep.randomizer.color` on the cube instances. -/
def cubeColorRule : Rule := Rule.colorize (Target.instancesOf ObjClass.cube) cubeColorDist

/-- Lines 122-124: `rep.randomizer.instantiate` for cylinders. -/
def cylInstantiateRule : Rule := Rule.instantiate ObjClass.cylinder cylAssetPath cylSizeDist [(("class"), ("cylinder"))]

/-- Lines 125-126: `rep.modify.pose` on the cylinder instances. -/
def cylPoseRule : Rule := Rule.modifyPose (Target.instancesOf ObjClass.cylinder) none (some cylRotationDist) (some cylScaleDist)

/-- Line 127: `rep.randomizer.scatter_2d(surface_prims=plane,
check_for_collisions=False)` for cylinders. -/
def cylScatterRule : Rule := Rule.scatter2d ObjClass.cylinder Target.plane false

/-- Line 128: `rep.randomizer.color` on the cylinder instances. -/
def cylColorRule : Rule := Rule.colorize (Target.instancesOf ObjClass.cylinder) cylColorDist

/-- The rules registered under the `rep.trigger.on_frame` scope
(lines 84-128), in the order the script registers them. -/
def registeredRules : List Rule :=
  [groundColorRule, domeColorRule, domeIntensityRule, cameraPoseRule,
   trayPoseRule, planePoseRule,
   cubeInstantiateRule, cubePoseRule, cubeScatterRule, cubeColorRule,
   cylInstantiateRule, cylPoseRule, cylScatterRule, cylColorRule]

/-- The position of a rule in the registration order. -/
def ruleIndex (r : Rule) : Nat := registeredRules.findIdx (fun x => decide (x = r))

/-- Modelled from the spec: rules registered under a frame-trigger scope
execute exactly once per triggered frame, in registration order; the
schedule for an `n`-frame run pairs every frame index with every
registered rule, frame by frame in registration order. -/
def frameSchedule (n : Nat) : List (Nat × Rule) :=
  (List.range n).flatMap (fun f => registeredRules.map (fun r => (f, r)))

/-! ## The distribution sampler and the per-frame interpreter -/

/-- A source of unit randomness for one frame: `tape id inst comp` is the
unit draw consumed by distribution instance `id` (or reserved scatter
stream `id`) for instance index `inst`, component `comp`. -/
abbrev Tape := Nat → Nat → Nat → ℚ

/-- Modelled from the spec: one uniform component sample, `low + u *
(high - low)` for a unit draw `u`. -/
def sampleComp (low high u : ℚ) : ℚ := low + u * (high - low)

/-- Modelled from the spec: a uniform vector/color sample draws each
component independently (component `i` consumes unit draw `u i`) and
always returns a value of the distribution's declared shape. -/
def sampleVec (d : UniformDist) (u : Nat → ℚ) : List ℚ :=
  (List.range d.low.length).map (fun i => sampleComp (d.low.getD i 0) (d.high.getD i 0) (u i))

/-- The per-frame value of a distribution instance for instance index
`inst`: every consumer of the same instance in the same frame sees the
same value. -/
def sampleFor (tape : Tape) (d : DistRef) (inst : Nat) : List ℚ :=
  sampleVec d.dist (tape d.id inst)

/-- A transform: position, rotation, scale. -/
structure Pose where
  position : List ℚ
  rotation : List ℚ
  scale : List ℚ
deriving DecidableEq, Repr

/-- The camera entity: optical parameters plus a pose. -/
structure CameraState where
  focal_length : ℚ
  focus_distance : ℚ
  horizontal_aperture : ℚ
  clipping_range : ℚ × ℚ
  pose : Pose
deriving DecidableEq, Repr

/-- One instantiated object instance: its class, its semantic labels,
its pose and its color. -/
structure ObjInstance where
  cls : ObjClass
  semantics : List (String × String)
  pose : Pose
  color : List ℚ
deriving DecidableEq, Repr

/-- The scene-graph state the registered rules mutate. -/
structure SceneState where
  camera : CameraState
  trayPose : Pose
  planePose : Pose
  groundColor : List ℚ
  domeColor : List ℚ
  domeIntensity : List ℚ
  cubes : List ObjInstance
  cylinders : List ObjInstance
  scatterRetries : Nat
deriving DecidableEq, Repr

/-- Line 75: `rep.create.camera(focal_length=1.93, focus_distance=0.8,
horizontal_aperture=3.896, clipping_range=(0.1, 1000000))`; the pose is
the default placement. -/
def createdCamera : CameraState :=
  ⟨1.93, 0.8, 3.896, (0.1, 1000000), ⟨[0, 0, 0], [0, 0, 0], [1, 1, 1]⟩⟩

/-- The scene right after composition (lines 64-81): the created camera,
the tray at its asset default placement, and the invisible plane of
line 81 (`scale=(0.35, 0.5, 1)`, `position=(0.6, 0, 1.12)`); the
stage-loaded ground and dome-light values are arbitrary defaults. -/
def initScene : SceneState :=
  ⟨createdCamera,
   ⟨[0, 0, 0], [0, 0, 0], [1, 1, 1]⟩,
   ⟨[0.6, 0, 1.12], [0, 0, 0], [0.35, 0.5, 1]⟩,
   [0.5, 0.5, 0.5], [1, 1, 1], [1000], [], [], 0⟩

/-- Apply an optional position/rotation/scale distribution triple to a
pose, sampling with instance index `inst`; absent distributions leave
the corresponding pose field unchanged. -/
def updPose (tape : Tape) (inst : Nat) (p : Pose)
    (pos rot sc : Option DistRef) : Pose :=
  ⟨pos.elim p.position (fun d => sampleFor tape d inst),
   rot.elim p.rotation (fun d => sampleFor tape d inst),
   sc.elim p.scale (fun d => sampleFor tape d inst)⟩

/-- Map over a list with the index of each element. -/
def mapWithIndex (f : Nat → ObjInstance → ObjInstance) : Nat → List ObjInstance → List ObjInstance
  | _, [] => []
  | j, o :: l => f j o :: mapWithIndex f (j+1) l

/-- The instances of a class in the scene. -/
def getClass (s : SceneState) : ObjClass → List ObjInstance
  | ObjClass.cube => s.cubes
  | ObjClass.cylinder => s.cylinders

/-- Replace the instances of a class in the scene. -/
def setClass (s : SceneState) (c : ObjClass) (l : List ObjInstance) : SceneState :=
  match c with
  | ObjClass.cube => { s with cubes := l }
  | ObjClass.cylinder => { s with cylinders := l }

/-- The reserved scatter stream of a class. -/
def scatterIdOf : ObjClass → Nat
  | ObjClass.cube => cubeScatterId
  | ObjClass.cylinder => cylScatterId

/-- A freshly instantiated object instance of class `c` tagged with the
semantic labels `sem`, at the asset default pose and color. -/
def freshInstance (c : ObjClass) (sem : List (String × String)) : ObjInstance :=
  ⟨c, sem, ⟨[0, 0, 0], [0, 0, 0], [1, 1, 1]⟩, [1, 1, 1]⟩

/-- Modelled from the spec: the instance count drawn by `instantiate`
from its size distribution (the floor of the sampled scalar). -/
def instanceCount (v : List ℚ) : Nat := (⌊v.getD 0 0⌋).toNat

/-- Modelled from the spec: one scatter-placement draw for instance `j`,
retry round `r`: a 2-D position uniform over the surface's extent
(half-extent per axis given by the surface's scale, around the surface's
position, the surface's local frame taken axis-aligned), with the
out-of-plane coordinate set to rest on the surface. -/
def scatterDraw (tape : Tape) (sid : Nat) (surf : Pose) (j r : Nat) : List ℚ :=
  [surf.position.getD 0 0 +
     sampleComp (-(surf.scale.getD 0 0)) (surf.scale.getD 0 0) (tape sid j (2*r)),
   surf.position.getD 1 0 +
     sampleComp (-(surf.scale.getD 1 0)) (surf.scale.getD 1 0) (tape sid j (2*r+1)),
   surf.position.getD 2 0]

/-- Modelled from the spec: with collision checking enabled a colliding
draw is re-sampled up to the retry bound `b`; the second component
counts the retries performed for this instance. -/
def retryDraw (tape : Tape) (sid : Nat) (surf : Pose) (j : Nat)
    (prev : List (List ℚ)) : Nat → Nat → List ℚ × Nat
  | r, 0 => (scatterDraw tape sid surf j r, 0)
  | r, b+1 =>
    if scatterDraw tape sid surf j r ∈ prev then
      ((retryDraw tape sid surf j prev (r+1) b).1,
       (retryDraw tape sid surf j prev (r+1) b).2 + 1)
    else (scatterDraw tape sid surf j r, 0)

/-- Modelled from the spec: collision-checked placement of a list of
instances, threading the positions already placed. -/
def placeChecked (tape : Tape) (sid : Nat) (surf : Pose) :
    Nat → List ObjInstance → List (List ℚ) → List ObjInstance × Nat
  | _, [], _ => ([], 0)
  | j, o :: l, prev =>
    ({ o with pose := { o.pose with position := (retryDraw tape sid surf j prev 0 10).1 } } ::
       (placeChecked tape sid surf (j+1) l ((retryDraw tape sid surf j prev 0 10).1 :: prev)).1,
     (retryDraw tape sid surf j prev 0 10).2 +
       (placeChecked tape sid surf (j+1) l ((retryDraw tape sid surf j prev 0 10).1 :: prev)).2)

/-- Modelled from the spec: `scatter_2d` places every instance on the
surface; with `check_for_collisions=False` each instance takes its first
draw, no retries occur, and overlapping placements are kept. -/
def scatterInstances (tape : Tape) (sid : Nat) (surf : Pose) (check : Bool)
    (l : List ObjInstance) : List ObjInstance × Nat :=
  if check then placeChecked tape sid surf 0 l []
  else
    (mapWithIndex
      (fun j o => { o with pose := { o.pose with position := scatterDraw tape sid surf j 0 } })
      0 l, 0)

/-- Modelled from the spec: the effect of one registered rule on the
scene, for one frame whose randomness is `tape`.  A selector matching
nothing (and target/attribute combinations the script never registers)
is a no-op. -/
def applyRule (tape : Tape) (s : SceneState) : Rule → SceneState
  | Rule.colorize (Target.primsPattern PrimPattern.groundPlane) d =>
      { s with groundColor := sampleFor tape d 0 }
  | Rule.colorize (Target.instancesOf c) d =>
      setClass s c (mapWithIndex (fun j o => { o with color := sampleFor tape d j }) 0 (getClass s c))
  | Rule.colorize _ _ => s
  | Rule.modifyAttr (Target.primsPattern PrimPattern.domeLight) AttrName.color d =>
      { s with domeColor := sampleFor tape d 0 }
  | Rule.modifyAttr (Target.primsPattern PrimPattern.domeLight) AttrName.intensity d =>
      { s with domeIntensity := sampleFor tape d 0 }
  | Rule.modifyAttr _ _ _ => s
  | Rule.modifyPose Target.camera pos rot sc =>
      { s with camera := { s.camera with pose := updPose tape 0 s.camera.pose pos rot sc } }
  | Rule.modifyPose Target.tray pos rot sc =>
      { s with trayPose := updPose tape 0 s.trayPose pos rot sc }
  | Rule.modifyPose Target.plane pos rot sc =>
      { s with planePose := updPose tape 0 s.planePose pos rot sc }
  | Rule.modifyPose (Target.instancesOf c) pos rot sc =>
      setClass s c (mapWithIndex (fun j o => { o with pose := updPose tape j o.pose pos rot sc }) 0 (getClass s c))
  | Rule.modifyPose (Target.primsPattern _) _ _ _ => s
  | Rule.instantiate c _ sizeD sem =>
      setClass s c ((List.range (instanceCount (sampleFor tape sizeD 0))).map
        (fun _ => freshInstance c sem))
  | Rule.scatter2d c Target.plane check =>
      { setClass s c (scatterInstances tape (scatterIdOf c) s.planePose check (getClass s c)).1 with
        scatterRetries :=
          s.scatterRetries + (scatterInstances tape (scatterIdOf c) s.planePose check (getClass s c)).2 }
  | Rule.scatter2d _ _ _ => s

/-- One triggered frame: execute every registered rule once, in
registration order. -/
def runFrame (tape : Tape) (s : SceneState) : SceneState :=
  registeredRules.foldl (applyRule tape) s

/-- An `n`-frame run, frame `f` drawing its randomness from `tapes f`. -/
def runFrames (tapes : Nat → Tape) : Nat → SceneState → SceneState
  | 0, s => s
  | n+1, s => runFrame (tapes n) (runFrames tapes n s)

/-! ## Field-level characterization of one frame -/

/-- The position distribution a `modify.pose` rule consumes. -/
def rulePosDist : Rule → Option DistRef
  | Rule.modifyPose _ p _ _ => p
  | _ => none

/-- The rotation distribution a `modify.pose` rule consumes. -/
def ruleRotDist : Rule → Option DistRef
  | Rule.modifyPose _ _ r _ => r
  | _ => none

lemma runFrame_trayPose (tape : Tape) (s : SceneState) :
    (runFrame tape s).trayPose =
      updPose tape 0 s.trayPose (some random_position) (some random_rotation) none := by
  simp [runFrame, registeredRules, groundColorRule, domeColorRule, domeIntensityRule,
    cameraPoseRule, trayPoseRule, planePoseRule, cubeInstantiateRule, cubePoseRule,
    cubeScatterRule, cubeColorRule, cylInstantiateRule, cylPoseRule, cylScatterRule,
    cylColorRule, applyRule, setClass, getClass]

lemma runFrame_planePose (tape : Tape) (s : SceneState) :
    (runFrame tape s).planePose =
      updPose tape 0 s.planePose (some random_position) (some random_rotation) none := by
  simp [runFrame, registeredRules, groundColorRule, domeColorRule, domeIntensityRule,
    cameraPoseRule, trayPoseRule, planePoseRule, cubeInstantiateRule, cubePoseRule,
    cubeScatterRule, cubeColorRule, cylInstantiateRule, cylPoseRule, cylScatterRule,
    cylColorRule, applyRule, setClass, getClass]

lemma runFrame_camera (tape : Tape) (s : SceneState) :
    (runFrame tape s).camera =
      { s.camera with
        pose := updPose tape 0 s.camera.pose (some camPositionDist) (some camRotationDist) none } := by
  simp [runFrame, registeredRules, groundColorRule, domeColorRule, domeIntensityRule,
    cameraPoseRule, trayPoseRule, planePoseRule, cubeInstantiateRule, cubePoseRule,
    cubeScatterRule, cubeColorRule, cylInstantiateRule, cylPoseRule, cylScatterRule,
    cylColorRule, applyRule, setClass, getClass]

lemma runFrames_camera (tapes : Nat → Tape) :
    ∀ (n : Nat) (s : SceneState), (runFrames tapes n s).camera =
      { s.camera with pose := (runFrames tapes n s).camera.pose } := by
  intro n
  induction n with
  | zero => intro s; rfl
  | succ n ih =>
    intro s
    have h1 : runFrames tapes (n+1) s = runFrame (tapes n) (runFrames tapes n s) := rfl
    rw [h1, runFrame_camera, ih s]

/-- C6: the tray pose rule and the plane pose rule consume the same
shared position distribution instance (`random_position`, created once
at line 102) and the same shared rotation distribution instance
(`random_rotation`, line 103); consequently, in every frame, after the
registered rules execute, the tray and the plane carry the same sampled
position and the same sampled rotation — they move together. -/
theorem tray_and_plane_share_distributions :
    rulePosDist trayPoseRule = rulePosDist planePoseRule ∧
    rulePosDist trayPoseRule = some random_position ∧
    ruleRotDist trayPoseRule = ruleRotDist planePoseRule ∧
    ruleRotDist trayPoseRule = some random_rotation ∧
    ∀ (tape : Tape) (s : SceneState),
      (runFrame tape s).trayPose.position = (runFrame tape s).planePose.position ∧
      (runFrame tape s).trayPose.rotation = (runFrame tape s).planePose.rotation := by
  refine ⟨rfl, rfl, rfl, rfl, fun tape s => ?_⟩
  rw [runFrame_trayPose, runFrame_planePose]
  exact ⟨rfl, rfl⟩

/-- C9: the camera's optical parameters are fixed at creation (line 75:
focal length 1.93, focus distance 0.8, horizontal aperture 3.896,
clipping range (0.1, 1000000)) and never mutated afterwards: after any
number of frames the camera state equals the starting camera with only
the pose replaced, so every non-pose attribute is unchanged across all
frames; the per-frame camera rule carries only position and rotation
distributions (no scale, no optical attribute). -/
theorem camera_optics_set_once_pose_only (tapes : Nat → Tape) (n : Nat) (s : SceneState) :
    (runFrames tapes n s).camera =
      { s.camera with pose := (runFrames tapes n s).camera.pose } ∧
    createdCamera.focal_length = 1.93 ∧
    createdCamera.focus_distance = 0.8 ∧
    createdCamera.horizontal_aperture = 3.896 ∧
    createdCamera.clipping_range = (0.1, 1000000) ∧
    initScene.camera = createdCamera ∧
    cameraPoseRule =
      Rule.modifyPose Target.camera (some camPositionDist) (some camRotationDist) none :=
  ⟨runFrames_camera tapes n s, rfl, rfl, rfl, rfl, rfl, rfl⟩

lemma mapWithIndex_length (f : Nat → ObjInstance → ObjInstance) :
    ∀ (l : List ObjInstance) (j : Nat), (mapWithIndex f j l).length = l.length := by
  intro l
  induction l with
  | nil => intro j; rfl
  | cons o l ih => intro j; simp [mapWithIndex, ih]

lemma mapWithIndex_getElem? (f : Nat → ObjInstance → ObjInstance) :
    ∀ (l : List ObjInstance) (j i : Nat),
      (mapWithIndex f j l)[i]? = (l[i]?).map (f (j + i)) := by
  intro l
  induction l with
  | nil => intro j i; simp [mapWithIndex]
  | cons o l ih =>
    intro j i
    cases i with
    | zero => simp [mapWithIndex]
    | succ i =>
      have hj : j + 1 + i = j + (i + 1) := by omega
      simp [mapWithIndex, ih (j+1) i, hj]

lemma runFrame_cubes (tape : Tape) (s : SceneState) :
    (runFrame tape s).cubes =
      mapWithIndex (fun j o => { o with color := sampleFor tape cubeColorDist j }) 0
        (mapWithIndex (fun j o => { o with pose := { o.pose with position :=
            (scatterDraw tape cubeScatterId
              (updPose tape 0 s.planePose (some random_position) (some random_rotation) none)
              j 0) } }) 0
          (mapWithIndex (fun j o =>
              { o with pose := updPose tape j o.pose none (some cubeRotationDist) (some cubeScaleDist) }) 0
            ((List.range (instanceCount (sampleFor tape cubeSizeDist 0))).map
              (fun _ => freshInstance ObjClass.cube [(("class"), ("cube"))])))) := by
  simp [runFrame, registeredRules, groundColorRule, domeColorRule, domeIntensityRule,
    cameraPoseRule, trayPoseRule, planePoseRule, cubeInstantiateRule, cubePoseRule,
    cubeScatterRule, cubeColorRule, cylInstantiateRule, cylPoseRule, cylScatterRule,
    cylColorRule, applyRule, setClass, getClass, scatterIdOf, scatterInstances]

lemma runFrame_cylinders (tape : Tape) (s : SceneState) :
    (runFrame tape s).cylinders =
      mapWithIndex (fun j o => { o with color := sampleFor tape cylColorDist j }) 0
        (mapWithIndex (fun j o => { o with pose := { o.pose with position :=
            (scatterDraw tape cylScatterId
              (updPose tape 0 s.planePose (some random_position) (some random_rotation) none)
              j 0) } }) 0
          (mapWithIndex (fun j o =>
              { o with pose := updPose tape j o.pose none (some cylRotationDist) (some cylScaleDist) }) 0
            ((List.range (instanceCount (sampleFor tape cylSizeDist 0))).map
              (fun _ => freshInstance ObjClass.cylinder [(("class"), ("cylinder"))])))) := by
  simp [runFrame, registeredRules, groundColorRule, domeColorRule, domeIntensityRule,
    cameraPoseRule, trayPoseRule, planePoseRule, cubeInstantiateRule, cubePoseRule,
    cubeScatterRule, cubeColorRule, cylInstantiateRule, cylPoseRule, cylScatterRule,
    cylColorRule, applyRule, setClass, getClass, scatterIdOf, scatterInstances]

lemma runFrame_scatterRetries (tape : Tape) (s : SceneState) :
    (runFrame tape s).scatterRetries = s.scatterRetries := by
  simp [runFrame, registeredRules, groundColorRule, domeColorRule, domeIntensityRule,
    cameraPoseRule, trayPoseRule, planePoseRule, cubeInstantiateRule, cubePoseRule,
    cubeScatterRule, cubeColorRule, cylInstantiateRule, cylPoseRule, cylScatterRule,
    cylColorRule, applyRule, setClass, getClass, scatterIdOf, scatterInstances]

lemma runFrame_cubes_elem (tape : Tape) (s : SceneState) (i : Nat) (o : ObjInstance)
    (h : (runFrame tape s).cubes[i]? = some o) :
    o.cls = ObjClass.cube ∧ o.semantics = [(("class"), ("cube"))] ∧
    o.pose.position = scatterDraw tape cubeScatterId (runFrame tape s).planePose i 0 := by
  rw [runFrame_cubes, mapWithIndex_getElem?, mapWithIndex_getElem?, mapWithIndex_getElem?,
    List.getElem?_map] at h
  cases hr : (List.range (instanceCount (sampleFor tape cubeSizeDist 0)))[i]? with
  | none => rw [hr] at h; simp at h
  | some k =>
    rw [hr] at h
    simp only [Option.map_some', Option.some.injEq] at h
    refine ⟨?_, ?_, ?_⟩
    · rw [← h]
      rfl
    · rw [← h]
      rfl
    · rw [← h, runFrame_planePose]
      simp [freshInstance]

lemma runFrame_cylinders_elem (tape : Tape) (s : SceneState) (i : Nat) (o : ObjInstance)
    (h : (runFrame tape s).cylinders[i]? = some o) :
    o.cls = ObjClass.cylinder ∧ o.semantics = [(("class"), ("cylinder"))] ∧
    o.pose.position = scatterDraw tape cylScatterId (runFrame tape s).planePose i 0 := by
  rw [runFrame_cylinders, mapWithIndex_getElem?, mapWithIndex_getElem?, mapWithIndex_getElem?,
    List.getElem?_map] at h
  cases hr : (List.range (instanceCount (sampleFor tape cylSizeDist 0)))[i]? with
  | none => rw [hr] at h; simp at h
  | some k =>
    rw [hr] at h
    simp only [Option.map_some', Option.some.injEq] at h
    refine ⟨?_, ?_, ?_⟩
    · rw [← h]
      rfl
    · rw [← h]
      rfl
    · rw [← h, runFrame_planePose]
      simp [freshInstance]

lemma runFrame_cubes_length (tape : Tape) (s : SceneState) :
    (runFrame tape s).cubes.length = instanceCount (sampleFor tape cubeSizeDist 0) := by
  rw [runFrame_cubes]
  simp [mapWithIndex_length]

lemma runFrame_cylinders_length (tape : Tape) (s : SceneState) :
    (runFrame tape s).cylinders.length = instanceCount (sampleFor tape cylSizeDist 0) := by
  rw [runFrame_cylinders]
  simp [mapWithIndex_length]

lemma filter_block (k f : Nat) (l : List Rule) :
    (l.map (fun r => (k, r))).filter (fun e => e.1 == f) =
      if k = f then l.map (fun r => (k, r)) else [] := by
  induction l with
  | nil => simp
  | cons a l ih =>
    by_cases hk : k = f
    · subst hk
      simp [List.filter_cons, ih]
    · simp [List.filter_cons, ih, hk]

lemma frameSchedule_succ (n : Nat) :
    frameSchedule (n+1) = frameSchedule n ++ registeredRules.map (fun r => (n, r)) := by
  simp [frameSchedule, List.range_succ]

lemma frameSchedule_fst_lt (n : Nat) : ∀ e ∈ frameSchedule n, e.1 < n := by
  intro e he
  simp only [frameSchedule, List.mem_flatMap, List.mem_map, List.mem_range] at he
  obtain ⟨f, hf, r, _, rfl⟩ := he
  exact hf

lemma frameSchedule_filter (n f : Nat) (h : f < n) :
    ((frameSchedule n).filter (fun e => e.1 == f)).map Prod.snd = registeredRules := by
  induction n with
  | zero => omega
  | succ n ih =>
    rw [frameSchedule_succ, List.filter_append, List.map_append]
    by_cases hf : f < n
    · rw [ih hf, filter_block]
      have hnf : ¬ (n = f) := by omega
      simp [hnf]
    · have hfn : f = n := by omega
      subst hfn
      have hnil : (frameSchedule f).filter (fun e => e.1 == f) = [] := by
        rw [List.filter_eq_nil_iff]
        intro e he
        have := frameSchedule_fst_lt f e he
        simp
        omega
      rw [hnil, filter_block]
      simp [List.map_map, Function.comp_def]

/-- The constant unit tape drawing one half everywhere. -/
def halfTape : Tape := fun _ _ _ => 1/2

/-- The sampled 2-D position lies within the surface's extent on both
in-plane axes. -/
def inBounds2d (p : List ℚ) (surf : Pose) : Prop :=
  surf.position.getD 0 0 - surf.scale.getD 0 0 ≤ p.getD 0 0 ∧
  p.getD 0 0 ≤ surf.position.getD 0 0 + surf.scale.getD 0 0 ∧
  surf.position.getD 1 0 - surf.scale.getD 1 0 ≤ p.getD 1 0 ∧
  p.getD 1 0 ≤ surf.position.getD 1 0 + surf.scale.getD 1 0

lemma sampleVec_getD (d : UniformDist) (u : Nat → ℚ) (i : Nat) (h : i < d.low.length) :
    (sampleVec d u).getD i 0 =
      sampleComp (d.low.getD i 0) (d.high.getD i 0) (u i) := by
  rw [sampleVec, List.getD_eq_getElem?_getD, List.getElem?_map, List.getElem?_range h]
  rfl

lemma sampleComp_bounds (low high u : ℚ) (h : low ≤ high) (h0 : 0 ≤ u) (h1 : u ≤ 1) :
    low ≤ sampleComp low high u ∧ sampleComp low high u ≤ high := by
  unfold sampleComp
  constructor <;> nlinarith

lemma scatterDraw_inBounds (tape : Tape) (sid : Nat) (surf : Pose) (j : Nat)
    (hx : 0 ≤ surf.scale.getD 0 0) (hy : 0 ≤ surf.scale.getD 1 0)
    (h0a : 0 ≤ tape sid j 0) (h0b : tape sid j 0 ≤ 1)
    (h1a : 0 ≤ tape sid j 1) (h1b : tape sid j 1 ≤ 1) :
    inBounds2d (scatterDraw tape sid surf j 0) surf := by
  unfold inBounds2d scatterDraw sampleComp
  rw [List.getD_eq_getElem?_getD] at hx hy
  norm_num
  refine ⟨by nlinarith, by nlinarith, by nlinarith, by nlinarith⟩

lemma sampleFor_size_getD (tape : Tape) (d : DistRef)
    (hd : d.dist = UniformDist.mk [0] [5]) :
    (sampleFor tape d 0).getD 0 0 = sampleComp 0 5 (tape d.id 0 0) := by
  rw [sampleFor, hd]
  have h := sampleVec_getD (UniformDist.mk [0] [5]) (tape d.id 0) 0 (by simp)
  simpa using h

lemma instanceCount_sample_le5 (tape : Tape) (d : DistRef)
    (hd : d.dist = UniformDist.mk [0] [5])
    (h0 : 0 ≤ tape d.id 0 0) (h1 : tape d.id 0 0 ≤ 1) :
    instanceCount (sampleFor tape d 0) ≤ 5 := by
  rw [instanceCount, sampleFor_size_getD tape d hd]
  have h5 : sampleComp 0 5 (tape d.id 0 0) ≤ 5 := by
    unfold sampleComp
    nlinarith
  have hf : ⌊sampleComp 0 5 (tape d.id 0 0)⌋ ≤ 5 := by
    calc ⌊sampleComp 0 5 (tape d.id 0 0)⌋ ≤ ⌊(5 : ℚ)⌋ := Int.floor_le_floor h5
    _ = 5 := by norm_num
  omega

lemma instanceCount_halfTape (d : DistRef) (hd : d.dist = UniformDist.mk [0] [5]) :
    instanceCount (sampleFor halfTape d 0) = 2 := by
  rw [instanceCount, sampleFor_size_getD halfTape d hd]
  have hv : sampleComp 0 5 (halfTape d.id 0 0) = 5/2 := by
    unfold sampleComp halfTape
    norm_num
  rw [hv]
  have hf : ⌊(5/2 : ℚ)⌋ = 2 := by
    rw [Int.floor_eq_iff]
    constructor <;> norm_num
  rw [hf]
  rfl

/-- C5: for every triggered frame the registered rules execute exactly
once each, in registration order — the frame's slice of the schedule is
exactly `registeredRules`, whose registration indices are: environment
rules (ground color 0, dome color 1, dome intensity 2), camera pose 3,
tray pose 4, scatter-surface (plane) pose 5, then the cube block
(instantiate 6, pose 7, scatter 8, color 9) and the cylinder block
(instantiate 10, pose 11, scatter 12, color 13).  Moreover, in the
per-frame interpretation, every scatter position is computed from the
surface pose that the frame's own plane-pose rule fixed (the frame's
sampled pose, not a stale one). -/
theorem rules_execute_once_per_frame_in_order (n f : Nat) (h : f < n) :
    ((frameSchedule n).filter (fun e => e.1 == f)).map Prod.snd = registeredRules ∧
    registeredRules.Nodup ∧
    (∀ r ∈ registeredRules,
      (((frameSchedule n).filter (fun e => e.1 == f)).map Prod.snd).count r = 1) ∧
    registeredRules.length = 14 ∧
    registeredRules[0]? = some groundColorRule ∧ registeredRules[1]? = some domeColorRule ∧
    registeredRules[2]? = some domeIntensityRule ∧ registeredRules[3]? = some cameraPoseRule ∧
    registeredRules[4]? = some trayPoseRule ∧ registeredRules[5]? = some planePoseRule ∧
    registeredRules[6]? = some cubeInstantiateRule ∧ registeredRules[7]? = some cubePoseRule ∧
    registeredRules[8]? = some cubeScatterRule ∧ registeredRules[9]? = some cubeColorRule ∧
    registeredRules[10]? = some cylInstantiateRule ∧ registeredRules[11]? = some cylPoseRule ∧
    registeredRules[12]? = some cylScatterRule ∧ registeredRules[13]? = some cylColorRule ∧
    (∀ (tape : Tape) (s : SceneState),
      (runFrame tape s).planePose =
        updPose tape 0 s.planePose (some random_position) (some random_rotation) none ∧
      (∀ (i : Nat) (o : ObjInstance), (runFrame tape s).cubes[i]? = some o →
        o.pose.position = scatterDraw tape cubeScatterId (runFrame tape s).planePose i 0) ∧
      (∀ (i : Nat) (o : ObjInstance), (runFrame tape s).cylinders[i]? = some o →
        o.pose.position = scatterDraw tape cylScatterId (runFrame tape s).planePose i 0)) := by
  have hnodup : registeredRules.Nodup := by decide
  refine ⟨frameSchedule_filter n f h, hnodup, ?_, rfl, rfl, rfl, rfl, rfl,
    rfl, rfl, rfl, rfl, rfl, rfl, rfl, rfl, rfl, rfl, ?_⟩
  · intro r hr
    rw [frameSchedule_filter n f h]
    exact List.nodup_iff_count_eq_one.mp hnodup r hr
  · intro tape s
    exact ⟨runFrame_planePose tape s,
      fun i o ho => (runFrame_cubes_elem tape s i o ho).2.2,
      fun i o ho => (runFrame_cylinders_elem tape s i o ho).2.2⟩

/-- C5 witness: the schedule slice of frame 0 in a 1-frame run. -/
theorem rules_execute_once_per_frame_in_order_witness :
    ((frameSchedule 1).filter (fun e => e.1 == 0)).map Prod.snd = registeredRules :=
  (rules_execute_once_per_frame_in_order 1 0 (by norm_num)).1

/-- C8: for every uniform distribution with `low <= high` componentwise
and unit draws in `[0, 1]`: sampling never fails (the sample always has
the declared shape), every component lies within `[low, high]`,
component `i` is a function of the distribution bounds and unit draw `i`
alone (components are drawn independently of one another), and the
sample is fully determined by the consumed draws — no persistent state
is visible across calls. -/
theorem uniform_sample_in_bounds_componentwise (d : UniformDist) (u : Nat → ℚ)
    (hlh : ∀ i, i < d.low.length → d.low.getD i 0 ≤ d.high.getD i 0)
    (hu : ∀ i, 0 ≤ u i ∧ u i ≤ 1) :
    (sampleVec d u).length = d.low.length ∧
    (∀ i, i < d.low.length →
      d.low.getD i 0 ≤ (sampleVec d u).getD i 0 ∧
      (sampleVec d u).getD i 0 ≤ d.high.getD i 0) ∧
    (∀ i, i < d.low.length →
      (sampleVec d u).getD i 0 =
        sampleComp (d.low.getD i 0) (d.high.getD i 0) (u i)) ∧
    (∀ u2 : Nat → ℚ, (∀ i, i < d.low.length → u i = u2 i) →
      sampleVec d u = sampleVec d u2) := by
  refine ⟨by simp [sampleVec], ?_, ?_, ?_⟩
  · intro i hi
    rw [sampleVec_getD d u i hi]
    exact sampleComp_bounds _ _ _ (hlh i hi) (hu i).1 (hu i).2
  · intro i hi
    exact sampleVec_getD d u i hi
  · intro u2 hiu
    unfold sampleVec
    apply List.map_congr_left
    intro i hi
    rw [List.mem_range] at hi
    rw [hiu i hi]

/-- C8 witness at a concrete distribution and tape. -/
theorem uniform_sample_in_bounds_componentwise_witness :
    (sampleVec (UniformDist.mk [0] [5]) (fun _ => 1/2)).length = 1 :=
  (uniform_sample_in_bounds_componentwise (UniformDist.mk [0] [5]) (fun _ => 1/2)
    (by
      intro i hi
      have h0 : i = 0 := by simpa using hi
      subst h0
      norm_num)
    (by intro i; norm_num)).1

/-- C7: every scatter-placed instance (cube or cylinder) has its 2-D
position within the scatter surface's bounds for the frame; both
scatter rules are registered with `check_for_collisions=False`, so no
placement retries occur (the retry counter never moves); and with the
constant one-half tape the first two cube instances of a frame from the
composed scene receive identical positions, which are kept in the
output — overlap is accepted, never rejected. -/
theorem scatter_within_bounds_overlap_accepted (tape : Tape)
    (hu : ∀ i j k, 0 ≤ tape i j k ∧ tape i j k ≤ 1) (s : SceneState)
    (hs : s.planePose.scale = [0.35, 0.5, 1]) :
    (∀ o ∈ (runFrame tape s).cubes,
      inBounds2d o.pose.position (runFrame tape s).planePose) ∧
    (∀ o ∈ (runFrame tape s).cylinders,
      inBounds2d o.pose.position (runFrame tape s).planePose) ∧
    cubeScatterRule = Rule.scatter2d ObjClass.cube Target.plane false ∧
    cylScatterRule = Rule.scatter2d ObjClass.cylinder Target.plane false ∧
    (runFrame tape s).scatterRetries = s.scatterRetries ∧
    2 ≤ (runFrame halfTape initScene).cubes.length ∧
    ((runFrame halfTape initScene).cubes.map (fun o => o.pose.position)).getD 0 [] =
      ((runFrame halfTape initScene).cubes.map (fun o => o.pose.position)).getD 1 [42] := by
  have hscale : (runFrame tape s).planePose.scale = [0.35, 0.5, 1] := by
    rw [runFrame_planePose]
    exact hs
  have hx : (0 : ℚ) ≤ (runFrame tape s).planePose.scale.getD 0 0 := by
    rw [hscale]; norm_num
  have hy : (0 : ℚ) ≤ (runFrame tape s).planePose.scale.getD 1 0 := by
    rw [hscale]; norm_num
  have hlen2 : (runFrame halfTape initScene).cubes.length = 2 := by
    rw [runFrame_cubes_length]
    exact instanceCount_halfTape cubeSizeDist rfl
  refine ⟨?_, ?_, rfl, rfl, runFrame_scatterRetries tape s, by omega, ?_⟩
  · intro o ho
    obtain ⟨i, hil, hio⟩ := List.getElem_of_mem ho
    have hsome : (runFrame tape s).cubes[i]? = some o := by
      rw [List.getElem?_eq_getElem hil, hio]
    rw [(runFrame_cubes_elem tape s i o hsome).2.2]
    exact scatterDraw_inBounds tape cubeScatterId _ i hx hy
      (hu cubeScatterId i 0).1 (hu cubeScatterId i 0).2
      (hu cubeScatterId i 1).1 (hu cubeScatterId i 1).2
  · intro o ho
    obtain ⟨i, hil, hio⟩ := List.getElem_of_mem ho
    have hsome : (runFrame tape s).cylinders[i]? = some o := by
      rw [List.getElem?_eq_getElem hil, hio]
    rw [(runFrame_cylinders_elem tape s i o hsome).2.2]
    exact scatterDraw_inBounds tape cylScatterId _ i hx hy
      (hu cylScatterId i 0).1 (hu cylScatterId i 0).2
      (hu cylScatterId i 1).1 (hu cylScatterId i 1).2
  · have hl0 : 0 < (runFrame halfTape initScene).cubes.length := by omega
    have hl1 : 1 < (runFrame halfTape initScene).cubes.length := by omega
    obtain ⟨o0, h0⟩ : ∃ o, (runFrame halfTape initScene).cubes[0]? = some o :=
      ⟨_, List.getElem?_eq_getElem hl0⟩
    obtain ⟨o1, h1⟩ : ∃ o, (runFrame halfTape initScene).cubes[1]? = some o :=
      ⟨_, List.getElem?_eq_getElem hl1⟩
    have e0 := (runFrame_cubes_elem halfTape initScene 0 o0 h0).2.2
    have e1 := (runFrame_cubes_elem halfTape initScene 1 o1 h1).2.2
    have heq : scatterDraw halfTape cubeScatterId (runFrame halfTape initScene).planePose 0 0 =
        scatterDraw halfTape cubeScatterId (runFrame halfTape initScene).planePose 1 0 := rfl
    rw [List.getD_eq_getElem?_getD, List.getD_eq_getElem?_getD,
      List.getElem?_map, List.getElem?_map, h0, h1]
    simp only [Option.map_some', Option.getD_some]
    rw [e0, e1]
    exact heq

/-- C7 witness: a concrete run with the constant one-half tape from the
composed scene performs zero scatter retries. -/
theorem scatter_within_bounds_overlap_accepted_witness :
    (runFrame halfTape initScene).scatterRetries = initScene.scatterRetries :=
  (scatter_within_bounds_overlap_accepted halfTape
    (by intro i j k; constructor <;> norm_num [halfTape]) initScene rfl).2.2.2.2.1

/-- C10: the per-class instance count is drawn from `uniform(0, 5)`
(both instantiate rules are registered with that size distribution), so
with unit draws in `[0, 1]` every frame has at most 5 cube instances, at
most 5 cylinder instances and at most 10 labeled instances in total;
every cube instance carries the semantic label `("class", "cube")` and
every cylinder instance carries `("class", "cylinder")`. -/
theorem instance_counts_bounded_and_labeled (tape : Tape)
    (hu : ∀ i j k, 0 ≤ tape i j k ∧ tape i j k ≤ 1) (s : SceneState) :
    cubeInstantiateRule =
      Rule.instantiate ObjClass.cube cubeAssetPath cubeSizeDist [(("class"), ("cube"))] ∧
    cubeSizeDist.dist = UniformDist.mk [0] [5] ∧
    cylInstantiateRule =
      Rule.instantiate ObjClass.cylinder cylAssetPath cylSizeDist [(("class"), ("cylinder"))] ∧
    cylSizeDist.dist = UniformDist.mk [0] [5] ∧
    (runFrame tape s).cubes.length ≤ 5 ∧
    (runFrame tape s).cylinders.length ≤ 5 ∧
    (runFrame tape s).cubes.length + (runFrame tape s).cylinders.length ≤ 10 ∧
    (∀ o ∈ (runFrame tape s).cubes, o.semantics = [(("class"), ("cube"))]) ∧
    (∀ o ∈ (runFrame tape s).cylinders, o.semantics = [(("class"), ("cylinder"))]) := by
  have hc : (runFrame tape s).cubes.length ≤ 5 := by
    rw [runFrame_cubes_length]
    exact instanceCount_sample_le5 tape cubeSizeDist rfl
      (hu cubeSizeDist.id 0 0).1 (hu cubeSizeDist.id 0 0).2
  have hy : (runFrame tape s).cylinders.length ≤ 5 := by
    rw [runFrame_cylinders_length]
    exact instanceCount_sample_le5 tape cylSizeDist rfl
      (hu cylSizeDist.id 0 0).1 (hu cylSizeDist.id 0 0).2
  refine ⟨rfl, rfl, rfl, rfl, hc, hy, by omega, ?_, ?_⟩
  · intro o ho
    obtain ⟨i, hil, hio⟩ := List.getElem_of_mem ho
    have hsome : (runFrame tape s).cubes[i]? = some o := by
      rw [List.getElem?_eq_getElem hil, hio]
    exact (runFrame_cubes_elem tape s i o hsome).2.1
  · intro o ho
    obtain ⟨i, hil, hio⟩ := List.getElem_of_mem ho
    have hsome : (runFrame tape s).cylinders[i]? = some o := by
      rw [List.getElem?_eq_getElem hil, hio]
    exact (runFrame_cylinders_elem tape s i o hsome).2.1

/-- C10 witness at the constant one-half tape and the composed scene. -/
theorem instance_counts_bounded_and_labeled_witness :
    (runFrame halfTape initScene).cubes.length ≤ 5 :=
  (instance_counts_bounded_and_labeled halfTape
    (by intro i j k; constructor <;> norm_num [halfTape]) initScene).2.2.2.2.1

end UR5eSDG
